import Mathlib

/-!
Shallow embedding of `codex-rs/linux-sandbox/src/linux_run_main.rs` (`run_main`).

The program is a one-shot sandbox launcher: given a sandbox policy and a
command, it optionally installs a seccomp network filter and landlock
filesystem rules on the current thread, possibly falls back to wrapping the
command in `bwrap`, and finally replaces the process image via `execvp`.

External collaborators (seccomp installer, landlock installer, `bwrap` path
lookup, `std::fs::canonicalize`) are modelled as an oracle environment `Env`;
the run is modelled as the ordered list of external enforcement calls it
makes (the trace) together with its terminal outcome: either the
process-replacing `execvp` call with a concrete program name and argument
vector, or a panic with a reason mirroring the distinct `panic!` sites of the
source.
-/

namespace LinuxSandbox

/-- External enforcement-related calls made by `run_main`, in program order. -/
inductive Event where
  | installNetworkFilter : Event
  | findExecutableInPath : String → Event
  | installFilesystemRules : List String → Event
  deriving DecidableEq, Repr

/-- The distinct `panic!` sites of `run_main`. -/
inductive PanicReason where
  | noCommandSpecified
  | seccompError
  | landlockNoFallback
  | commandCString
  | argCString
  | canonicalizeError
  deriving DecidableEq, Repr

/-- Terminal outcome: the process-replacing `execvp` call (program name and
the argument vector handed to it, NUL terminator omitted), or a panic. -/
inductive Outcome where
  | exec : String → List String → Outcome
  | panic : PanicReason → Outcome
  deriving DecidableEq, Repr

/-- The policy as queried by `run_main`: the two capability flags and
`get_writable_roots_with_cwd` (whose computation lives in `codex_core` and is
opaque here; only its result is consumed). -/
structure SandboxPolicy where
  has_full_network_access : Bool
  has_full_disk_write_access : Bool
  get_writable_roots_with_cwd : String → List String

/-- Oracle for the external collaborators: success of the seccomp installer,
success of the landlock installer, whether `bwrap` is found on the search
path, and the result of `std::fs::canonicalize` per path (`none` = error). -/
structure Env where
  seccomp_ok : Bool
  landlock_ok : Bool
  bwrap_in_path : Bool
  canonicalize : String → Option String

/-- A Rust `String` contains an embedded NUL byte: exactly the condition
under which `CString::new` fails in the source. -/
def containsNul (s : String) : Bool :=
  s.toList.contains (Char.ofNat 0)

/-- The fixed seven tokens pushed first onto the bwrap argument vector. -/
def bwrapFixedTokens : List String :=
  ["--unshare-all", "--share-net", "--ro-bind", "/", "/", "--dev", "/dev"]

/-- The `for root in &writable_roots` loop: one `--bind C C` triple per root,
in order, with `C` the canonical form; `none` when some canonicalization
fails (the source panics at the first failure). -/
def bindTokens (canonicalize : String → Option String) :
    List String → Option (List String)
  | [] => some []
  | root :: rest =>
    match canonicalize root with
    | some canonical_root =>
      match bindTokens canonicalize rest with
      | some tail => some ("--bind" :: canonical_root :: canonical_root :: tail)
      | none => none
    | none => none

/-- The full bwrap argument vector: fixed tokens, then bind triples, then the
original command (`args.push(c_command); args.extend(c_args)`). -/
def bwrapArgv (canonicalize : String → Option String)
    (writable_roots command : List String) : Option (List String) :=
  match bindTokens canonicalize writable_roots with
  | some binds => some (bwrapFixedTokens ++ binds ++ command)
  | none => none

/-- The trace contributed by the network-filter step: one installer call
unless the policy grants full network access. -/
def netTrace (sandbox_policy : SandboxPolicy) : List Event :=
  if sandbox_policy.has_full_network_access then [] else [Event.installNetworkFilter]

/-- Straight-line embedding of `run_main`, following the source order:
empty-command check; seccomp network filter when network access is not full
(failure fatal); writable-root resolution; `bwrap` search-path lookup;
landlock installation when disk-write access is not full, with fallback to
bwrap on failure only when `bwrap` is available; `CString` conversion of the
command and its arguments (embedded NUL fatal); then `execvp` of either the
bwrap-wrapped vector or the bare-argument vector. -/
def run_main (env : Env) (sandbox_policy_cwd : String)
    (sandbox_policy : SandboxPolicy) (command : List String) :
    List Event × Outcome :=
  match command with
  | [] => ([], Outcome.panic PanicReason.noCommandSpecified)
  | c0 :: rest =>
    if !sandbox_policy.has_full_network_access && !env.seccomp_ok then
      (netTrace sandbox_policy, Outcome.panic PanicReason.seccompError)
    else
      let writable_roots : List String :=
        sandbox_policy.get_writable_roots_with_cwd sandbox_policy_cwd
      let bwrap_available : Bool := env.bwrap_in_path
      let trace1 : List Event :=
        netTrace sandbox_policy ++ [Event.findExecutableInPath "bwrap"]
      let fs_attempted : Bool := !sandbox_policy.has_full_disk_write_access
      let trace2 : List Event :=
        if fs_attempted then trace1 ++ [Event.installFilesystemRules writable_roots]
        else trace1
      let use_bwrap : Bool := fs_attempted && !env.landlock_ok
      (trace2,
        if fs_attempted && !env.landlock_ok && !bwrap_available then
          Outcome.panic PanicReason.landlockNoFallback
        else if containsNul c0 then
          Outcome.panic PanicReason.commandCString
        else if rest.any containsNul then
          Outcome.panic PanicReason.argCString
        else if use_bwrap then
          match bwrapArgv env.canonicalize writable_roots (c0 :: rest) with
          | some args => Outcome.exec "bwrap" args
          | none => Outcome.panic PanicReason.canonicalizeError
        else
          Outcome.exec c0 rest)

/-- Whether the outcome is the process-replacing `execvp` call (as opposed to
abnormal termination by panic). -/
def Outcome.isExec : Outcome → Bool
  | Outcome.exec _ _ => true
  | Outcome.panic _ => false

/-- Spec-side formulation (for refinement comparison): the canonical forms of
the writable roots, in input order; `none` when some root fails to
canonicalize. -/
def specCanonicalRoots (canonicalize : String → Option String) :
    List String → Option (List String)
  | [] => some []
  | root :: rest =>
    match canonicalize root with
    | some c => (specCanonicalRoots canonicalize rest).map (fun cs => c :: cs)
    | none => none

/-- Spec-side formulation: one `--bind C C` pair per canonical root, flattened
in order. -/
def specBindPairs (canonical_roots : List String) : List String :=
  (canonical_roots.map (fun c => ["--bind", c, c])).flatten

/-- The `OnceLock` used for the memoized `bwrap` availability flag, modelled
as explicit state: the stored value, if any. -/
structure OnceLock (α : Type) where
  value : Option α

/-- `OnceLock::get_or_init`: returns the stored value when present, otherwise
runs the initializer and stores its result. The final `Bool` records whether
the initializer ran on this call. -/
def OnceLock.get_or_init {α : Type} (lock : OnceLock α) (f : Unit → α) :
    α × OnceLock α × Bool :=
  match lock.value with
  | some v => (v, lock, false)
  | none =>
    let v := f ()
    (v, { value := some v }, true)

/-- Environment where every external collaborator succeeds and
canonicalization is the identity. -/
def envHappy : Env := ⟨true, true, true, fun r => some r⟩

/-- Environment where landlock installation fails but `bwrap` is on the
search path. -/
def envLandlockFail : Env := ⟨true, false, true, fun r => some r⟩

/-- Environment where landlock installation fails and `bwrap` is absent. -/
def envNoBwrap : Env := ⟨true, false, false, fun r => some r⟩

/-- Policy with full network and full disk-write access. -/
def policyFull : SandboxPolicy := ⟨true, true, fun _ => []⟩

/-- Policy with restricted network and full disk-write access. -/
def policyNoNet : SandboxPolicy := ⟨false, true, fun _ => []⟩

/-- Policy with full network access and disk writes restricted to the single
root `/tmp/work`. -/
def policyDiskRestricted : SandboxPolicy := ⟨true, false, fun _ => ["/tmp/work"]⟩

/-- A string consisting of a single NUL byte. -/
def nulString : String := String.mk [Char.ofNat 0]

/-- Claim C1 (the code diverges from it): for the spec scenario — full
network and full disk-write access, command `["echo", "hi"]` — the
direct-execution path calls `execvp` with program name `echo` but with
argument vector `["hi"]`: the source builds `c_args` from
`command.iter().skip(1)` and passes only those to `execvp`, dropping
`command[0]`, so the executed argv is not the full original command
`["echo", "hi"]`. -/
theorem c1_direct_exec_argv_drops_program_name :
    run_main envHappy "/" policyFull ["echo", "hi"] =
      ([Event.findExecutableInPath "bwrap"], Outcome.exec "echo" ["hi"]) ∧
    (["hi"] : List String) ≠ ["echo", "hi"] := by
  decide

/-- Claim C2 counterexample: with restricted network, full disk-write access,
and a command whose second argument is a lone NUL byte, the run panics on the
NUL — but only after the network-filter installer call already appears in the
trace, refuting that the NUL is detected before any enforcement installer
call. -/
theorem c2_counterexample_nul_after_installer :
    containsNul nulString = true ∧
    run_main envHappy "/" policyNoNet ["echo", nulString] =
      ([Event.installNetworkFilter, Event.findExecutableInPath "bwrap"],
        Outcome.panic PanicReason.argCString) ∧
    Event.installNetworkFilter ∈
      (run_main envHappy "/" policyNoNet ["echo", nulString]).1 := by
  decide

/-- Claim C2 (amended): an embedded NUL byte in any command argument is fatal
— the run never reaches the process-replacing execution — and on the fallback
path a non-canonicalizable writable root is likewise fatal before any
execution attempt; but detection happens after the enforcement installer
calls, not before them. -/
theorem c2_amended_nul_and_canonicalize_fatal (env : Env) (cwd : String)
    (sandbox_policy : SandboxPolicy) (command : List String) :
    (command.any containsNul = true →
      ((run_main env cwd sandbox_policy command).2).isExec = false) ∧
    (∀ c0 rest, command = c0 :: rest →
      (sandbox_policy.has_full_network_access = true ∨ env.seccomp_ok = true) →
      sandbox_policy.has_full_disk_write_access = false →
      env.landlock_ok = false → env.bwrap_in_path = true →
      command.any containsNul = false →
      bindTokens env.canonicalize
        (sandbox_policy.get_writable_roots_with_cwd cwd) = none →
      (run_main env cwd sandbox_policy command).2 =
        Outcome.panic PanicReason.canonicalizeError) := by
  obtain ⟨fn, fd, roots⟩ := sandbox_policy
  obtain ⟨sok, lok, bav, canon⟩ := env
  constructor
  · intro h
    match command with
    | [] => simp at h
    | c0 :: rest =>
      simp only [run_main]
      split_ifs <;> simp_all [Outcome.isExec]
  · intro c0 rest heq hnet hfd hll hbw hnul hbind
    subst heq
    simp only at hnet hfd hll hbw hbind
    subst hfd hll hbw
    rcases hnet with h | h <;> subst h <;>
      simp_all [run_main, netTrace, bwrapArgv]

/-- Claim C2 witness: a NUL-carrying command never reaches execution. -/
theorem c2_amended_witness :
    ((run_main envHappy "/" policyFull ["echo", nulString]).2).isExec = false :=
  (c2_amended_nul_and_canonicalize_fatal envHappy "/" policyFull
    ["echo", nulString]).1 (by decide)

/-- Claim C3: without full disk-write access, when landlock installation
fails and `bwrap` is unavailable, the run ends in the landlock-no-fallback
panic and no process-replacing execution is attempted. -/
theorem c3_landlock_fail_no_fallback_aborts (env : Env) (cwd : String)
    (sandbox_policy : SandboxPolicy) (c0 : String) (rest : List String)
    (hnet : sandbox_policy.has_full_network_access = true ∨ env.seccomp_ok = true)
    (hfd : sandbox_policy.has_full_disk_write_access = false)
    (hll : env.landlock_ok = false) (hbw : env.bwrap_in_path = false) :
    run_main env cwd sandbox_policy (c0 :: rest) =
      (netTrace sandbox_policy ++
        [Event.findExecutableInPath "bwrap",
          Event.installFilesystemRules
            (sandbox_policy.get_writable_roots_with_cwd cwd)],
        Outcome.panic PanicReason.landlockNoFallback) ∧
    ((run_main env cwd sandbox_policy (c0 :: rest)).2).isExec = false := by
  obtain ⟨fn, fd, roots⟩ := sandbox_policy
  obtain ⟨sok, lok, bav, canon⟩ := env
  simp only at hnet hfd hll hbw
  subst hfd hll hbw
  rcases hnet with h | h <;> subst h <;>
    simp [run_main, netTrace, Outcome.isExec]

/-- Claim C3 witness: concrete instance of the no-fallback abort. -/
theorem c3_witness :
    run_main envNoBwrap "/" policyDiskRestricted ["ls"] =
      ([Event.findExecutableInPath "bwrap",
        Event.installFilesystemRules ["/tmp/work"]],
        Outcome.panic PanicReason.landlockNoFallback) := by
  have h := (c3_landlock_fail_no_fallback_aborts envNoBwrap "/"
    policyDiskRestricted "ls" [] (Or.inl rfl) rfl rfl rfl).1
  simpa [netTrace, policyDiskRestricted] using h

/-- Claim C4: without full disk-write access, when landlock installation
fails and `bwrap` is available, the run replaces the process image with the
fallback tool `bwrap` — not the original command directly — using the
constructed wrapper argument vector. -/
theorem c4_landlock_fail_with_fallback_wraps (env : Env) (cwd : String)
    (sandbox_policy : SandboxPolicy) (c0 : String) (rest : List String)
    (binds : List String)
    (hnet : sandbox_policy.has_full_network_access = true ∨ env.seccomp_ok = true)
    (hfd : sandbox_policy.has_full_disk_write_access = false)
    (hll : env.landlock_ok = false) (hbw : env.bwrap_in_path = true)
    (hnul : (c0 :: rest).any containsNul = false)
    (hbinds : bindTokens env.canonicalize
      (sandbox_policy.get_writable_roots_with_cwd cwd) = some binds) :
    (run_main env cwd sandbox_policy (c0 :: rest)).2 =
      Outcome.exec "bwrap" (bwrapFixedTokens ++ binds ++ (c0 :: rest)) := by
  obtain ⟨fn, fd, roots⟩ := sandbox_policy
  obtain ⟨sok, lok, bav, canon⟩ := env
  simp only at hnet hfd hll hbw hbinds
  subst hfd hll hbw
  rcases hnet with h | h <;> subst h <;>
    simp_all [run_main, netTrace, bwrapArgv]

/-- Claim C4 witness: concrete fallback execution through `bwrap`. -/
theorem c4_witness :
    (run_main envLandlockFail "/" policyDiskRestricted ["ls"]).2 =
      Outcome.exec "bwrap"
        (bwrapFixedTokens ++ ["--bind", "/tmp/work", "/tmp/work"] ++ ["ls"]) :=
  c4_landlock_fail_with_fallback_wraps envLandlockFail "/" policyDiskRestricted
    "ls" [] ["--bind", "/tmp/work", "/tmp/work"] (Or.inl rfl) rfl rfl rfl
    (by decide) (by decide)

/-- Helper: the source bind-token loop equals the spec-side presentation
(canonical roots in order, one bind pair each, flattened). -/
theorem bindTokens_eq_specCanonicalRoots (canonicalize : String → Option String)
    (roots : List String) :
    bindTokens canonicalize roots =
      (specCanonicalRoots canonicalize roots).map specBindPairs := by
  induction roots with
  | nil => simp [bindTokens, specCanonicalRoots, specBindPairs]
  | cons r rs ih =>
    simp only [bindTokens, specCanonicalRoots]
    cases h : canonicalize r with
    | none => simp
    | some c =>
      cases h2 : specCanonicalRoots canonicalize rs with
      | none => simp [ih, h2]
      | some cs => simp [ih, h2, specBindPairs]

/-- Claim C5: for every writable-root list whose roots all canonicalize
(including the empty list), the wrapper argv is exactly the fixed seven
tokens, then one bind pair per root in input order using the canonical
forms, then the original command unmodified in original order. -/
theorem c5_wrapper_argv_shape (canonicalize : String → Option String)
    (writable_roots command canonical_roots : List String)
    (hc : specCanonicalRoots canonicalize writable_roots = some canonical_roots) :
    bwrapArgv canonicalize writable_roots command =
      some (bwrapFixedTokens ++ specBindPairs canonical_roots ++ command) := by
  simp [bwrapArgv, bindTokens_eq_specCanonicalRoots, hc]

/-- Claim C5 witness: concrete wrapper argv for one root. -/
theorem c5_witness :
    bwrapArgv (fun r => some r) ["/tmp/work"] ["ls"] =
      some (bwrapFixedTokens ++ specBindPairs ["/tmp/work"] ++ ["ls"]) :=
  c5_wrapper_argv_shape (fun r => some r) ["/tmp/work"] ["ls"] ["/tmp/work"]
    (by decide)

/-- Claim C6: when network access is not full, the network-filter installer
call is the first event of every run with a nonempty command and a seccomp
failure is immediately fatal with no fallback; when network access is full,
no network-filter call ever appears in the trace. -/
theorem c6_network_filter_first_and_fatal (env : Env) (cwd : String)
    (sandbox_policy : SandboxPolicy) (command : List String) :
    (sandbox_policy.has_full_network_access = false → command ≠ [] →
      ((run_main env cwd sandbox_policy command).1).head? =
        some Event.installNetworkFilter ∧
      (env.seccomp_ok = false →
        run_main env cwd sandbox_policy command =
          ([Event.installNetworkFilter],
            Outcome.panic PanicReason.seccompError))) ∧
    (sandbox_policy.has_full_network_access = true →
      Event.installNetworkFilter ∉ (run_main env cwd sandbox_policy command).1) := by
  obtain ⟨fn, fd, roots⟩ := sandbox_policy
  obtain ⟨sok, lok, bav, canon⟩ := env
  constructor
  · intro hfn hc
    simp only at hfn
    subst hfn
    match command with
    | [] => exact absurd rfl hc
    | c0 :: rest =>
      cases sok <;> cases fd <;>
        simp [run_main, netTrace]
  · intro hfn
    simp only at hfn
    subst hfn
    match command with
    | [] => simp [run_main]
    | c0 :: rest =>
      cases fd <;> simp [run_main, netTrace]

/-- Claim C6 witness: a seccomp-installer failure is immediately fatal. -/
theorem c6_witness :
    run_main ⟨false, true, true, fun r => some r⟩ "/" policyNoNet ["ls"] =
      ([Event.installNetworkFilter], Outcome.panic PanicReason.seccompError) :=
  ((c6_network_filter_first_and_fatal ⟨false, true, true, fun r => some r⟩ "/"
    policyNoNet ["ls"]).1 rfl (by simp)).2 rfl

/-- Claim C7: with full disk-write access no filesystem-rule installer call
appears in the trace, and (for NUL-free commands past the network stage) the
outcome is direct execution of the original program, never the `bwrap`
fallback — regardless of fallback-tool availability, which is universally
quantified here. -/
theorem c7_full_disk_write_direct (env : Env) (cwd : String)
    (sandbox_policy : SandboxPolicy) (c0 : String) (rest : List String)
    (hfd : sandbox_policy.has_full_disk_write_access = true)
    (hnet : sandbox_policy.has_full_network_access = true ∨ env.seccomp_ok = true) :
    (∀ rs, Event.installFilesystemRules rs ∉
      (run_main env cwd sandbox_policy (c0 :: rest)).1) ∧
    ((c0 :: rest).any containsNul = false →
      (run_main env cwd sandbox_policy (c0 :: rest)).2 = Outcome.exec c0 rest) := by
  obtain ⟨fn, fd, roots⟩ := sandbox_policy
  obtain ⟨sok, lok, bav, canon⟩ := env
  simp only at hfd hnet
  subst hfd
  constructor
  · intro rs
    rcases hnet with h | h
    · subst h; simp [run_main, netTrace]
    · subst h; cases fn <;> simp [run_main, netTrace]
  · intro hnul
    rcases hnet with h | h
    · subst h; simp_all [run_main, netTrace]
    · subst h; cases fn <;> simp_all [run_main, netTrace]

/-- Claim C7 witness: direct execution under a fully permissive policy. -/
theorem c7_witness :
    (run_main envHappy "/" policyFull ["echo", "hi"]).2 =
      Outcome.exec "echo" ["hi"] :=
  (c7_full_disk_write_direct envHappy "/" policyFull "echo" ["hi"] rfl
    (Or.inl rfl)).2 (by decide)

/-- Claim C8: the empty command is rejected immediately: the run panics with
an empty trace, hence before any installer call and any execution attempt. -/
theorem c8_empty_command_rejected (env : Env) (cwd : String)
    (sandbox_policy : SandboxPolicy) :
    run_main env cwd sandbox_policy [] =
      ([], Outcome.panic PanicReason.noCommandSpecified) := rfl

/-- Claim C9: canonicalization happens only on the fallback path — when disk
write access is full or landlock installation succeeds, the run does not
depend on the canonicalizer at all and cannot end in the canonicalization
abort; and whenever the filesystem-rule installer is called it receives the
uncanonicalized writable roots. -/
theorem c9_canonicalize_only_on_fallback (env : Env) (cwd : String)
    (sandbox_policy : SandboxPolicy) (command : List String)
    (f : String → Option String) :
    ((sandbox_policy.has_full_disk_write_access = true ∨ env.landlock_ok = true) →
      run_main { env with canonicalize := f } cwd sandbox_policy command =
        run_main env cwd sandbox_policy command ∧
      (run_main env cwd sandbox_policy command).2 ≠
        Outcome.panic PanicReason.canonicalizeError) ∧
    (command ≠ [] →
      (sandbox_policy.has_full_network_access = true ∨ env.seccomp_ok = true) →
      sandbox_policy.has_full_disk_write_access = false →
      Event.installFilesystemRules
          (sandbox_policy.get_writable_roots_with_cwd cwd) ∈
        (run_main env cwd sandbox_policy command).1) := by
  obtain ⟨fn, fd, roots⟩ := sandbox_policy
  obtain ⟨sok, lok, bav, canon⟩ := env
  constructor
  · intro h
    simp only at h
    match command with
    | [] => exact ⟨rfl, by simp [run_main]⟩
    | c0 :: rest =>
      rcases h with h | h <;> subst h <;>
        constructor <;>
        (simp only [run_main, netTrace]; split_ifs <;> simp_all)
  · intro hc hnet hfd
    simp only at hnet hfd
    subst hfd
    match command with
    | [] => exact absurd rfl hc
    | c0 :: rest =>
      rcases hnet with h | h <;> subst h <;>
        simp [run_main, netTrace]

/-- Claim C9 witness: under a fully permissive policy the run is independent
of the canonicalizer and never ends in the canonicalization abort. -/
theorem c9_witness :
    run_main { envHappy with canonicalize := fun _ => none } "/" policyFull
        ["ls"] =
      run_main envHappy "/" policyFull ["ls"] ∧
    (run_main envHappy "/" policyFull ["ls"]).2 ≠
      Outcome.panic PanicReason.canonicalizeError :=
  (c9_canonicalize_only_on_fallback envHappy "/" policyFull ["ls"]
    (fun _ => none)).1 (Or.inl rfl)

/-- Claim C10: on every run that passes the network stage — including runs
with full disk-write access, where the value is never consumed — the `bwrap`
search-path lookup event occurs, preceded only by the network-filter part of
the trace (which contains no filesystem-rule call); and the OnceLock
memoization computes at most once: after a first get_or_init, any later
get_or_init returns the first value and does not run its initializer. -/
theorem c10_lookup_always_and_memoized (env : Env) (cwd : String)
    (sandbox_policy : SandboxPolicy) (c0 : String) (rest : List String)
    (hnet : sandbox_policy.has_full_network_access = true ∨ env.seccomp_ok = true) :
    (∃ post, (run_main env cwd sandbox_policy (c0 :: rest)).1 =
        netTrace sandbox_policy ++ Event.findExecutableInPath "bwrap" :: post ∧
      ∀ rs, Event.installFilesystemRules rs ∉ netTrace sandbox_policy) ∧
    (∀ (lock : OnceLock Bool) (f g : Unit → Bool),
      (((lock.get_or_init f).2.1).get_or_init g).1 = (lock.get_or_init f).1 ∧
      (((lock.get_or_init f).2.1).get_or_init g).2.2 = false) := by
  constructor
  · obtain ⟨fn, fd, roots⟩ := sandbox_policy
    obtain ⟨sok, lok, bav, canon⟩ := env
    simp only at hnet
    have hno : ∀ rs, Event.installFilesystemRules rs ∉ netTrace ⟨fn, fd, roots⟩ := by
      intro rs
      cases fn <;> simp [netTrace]
    cases fd with
    | false =>
      refine ⟨[Event.installFilesystemRules (roots cwd)], ?_, hno⟩
      rcases hnet with h | h <;> subst h <;> simp [run_main, netTrace]
    | true =>
      refine ⟨[], ?_, hno⟩
      rcases hnet with h | h <;> subst h <;> simp [run_main, netTrace]
  · intro lock f g
    cases h : lock.value <;> simp [OnceLock.get_or_init, h]

/-- Claim C10 witness: concrete memoization instance. -/
theorem c10_witness :
    ((((⟨none⟩ : OnceLock Bool).get_or_init (fun _ => true)).2.1.get_or_init
        (fun _ => false)).1 =
      ((⟨none⟩ : OnceLock Bool).get_or_init (fun _ => true)).1) ∧
    (((⟨none⟩ : OnceLock Bool).get_or_init (fun _ => true)).2.1.get_or_init
        (fun _ => false)).2.2 = false :=
  (c10_lookup_always_and_memoized envHappy "/" policyFull "ls" []
    (Or.inl rfl)).2 (⟨none⟩ : OnceLock Bool) (fun _ => true) (fun _ => false)

end LinuxSandbox
